import Mathlib

/-!
Shallow embedding of the two utilities of this repository:

* the text-overlay HTTP service (`node/server.js`, given as `src/unnamed/part_000`):
  the `xmlEscape` helper, the option-resolution and SVG-template logic of
  `addTextToImage` (lines 72-161), and the request validation of the
  `POST /api/image/add-text` route (lines 176-211);
* the source-selection logic `getImageBuffer` of the standalone C2D script
  (`src/image-processing/node/image-processing.js`, lines 160-211).

JavaScript numbers reaching arithmetic (font size, stroke width) are modelled
as rationals, since `Math.min(w, h) / 12` and `fontSize / 20` are ordinary
floating-point divisions whose values here are exact small rationals.
String case-folding uses `String.toLower`; the format strings involved are
ASCII, where it agrees with the JavaScript `toLowerCase`.
-/

namespace Overlay

/-- Models the JavaScript expression `a || b` for a string `a`: the empty
string is falsy, every other string is truthy. -/
def jsOrS (a b : String) : String := if a = "" then b else a

/-- Models `a || b` where `a` is a possibly-absent (undefined) string field:
`undefined` and the empty string are falsy. -/
def jsOrOpt : Option String → String → String
  | none, b => b
  | some a, b => if a = "" then b else a

/-- Models `parseInt(s, 10)`: skip leading whitespace, read an optional sign
and then the longest leading run of decimal digits; `none` models `NaN`
(no digits). Trailing garbage is ignored, as in JavaScript. -/
def parseIntJS (s : String) : Option Int :=
  let l := s.data.dropWhile fun c => c.isWhitespace
  let sl : Int × List Char :=
    match l with
    | '-' :: r => (-1, r)
    | '+' :: r => (1, r)
    | r => (1, r)
  let ds := sl.2.takeWhile fun c => c.isDigit
  if ds.isEmpty then none
  else some (sl.1 * (ds.foldl (fun acc c => 10 * acc + ((c.toNat - '0'.toNat : ℕ) : Int)) 0))

/-- Models `parseInt(x, 10)` where `x` is a possibly-absent request field;
`parseInt(undefined, 10)` is `NaN`, modelled as `none`. -/
def parseIntOpt : Option String → Option Int
  | none => none
  | some s => parseIntJS s

/-- Lines 78-79 of the server: `defaultFontSize = Math.max(20, Math.min(width,
height) / 12)` and `currentFontSize = parseInt(options.fontSize, 10) ||
defaultFontSize`. `NaN` and `0` are falsy, so they select the default. -/
def resolveFontSize (fontSize : Option String) (w h : ℕ) : ℚ :=
  let defaultFontSize : ℚ := max 20 (((min w h : ℕ) : ℚ) / 12)
  match parseIntOpt fontSize with
  | some n => if n = 0 then defaultFontSize else (n : ℚ)
  | none => defaultFontSize

/-- Line 87 of the server: `parseInt(options.strokeWidth, 10) >= 0 ?
parseInt(options.strokeWidth, 10) : Math.max(1, currentFontSize / 20)`.
`NaN >= 0` is false, so a non-parsing value selects the dynamic default. -/
def resolveStrokeWidth (strokeWidth : Option String) (currentFontSize : ℚ) : ℚ :=
  match parseIntOpt strokeWidth with
  | some n => if 0 ≤ n then (n : ℚ) else max 1 (currentFontSize / 20)
  | none => max 1 (currentFontSize / 20)

/-- Line 96 of the server: `validFormats = ['jpeg', 'jpg', 'png', 'webp',
'tiff', 'gif', 'avif']`. -/
def validFormats : List String := ["jpeg", "jpg", "png", "webp", "tiff", "gif", "avif"]

/-- Lines 96-103 of the server: the case-folded raw format is replaced by
`png` when not in `validFormats`, then the alias `jpg` is rewritten to
`jpeg`. -/
def sanitizeFormat (raw : String) : String :=
  let checked := if validFormats.contains raw then raw else "png"
  if checked = "jpg" then "jpeg" else checked

/-- Models `toLowerCase()` by lowering each character; on the ASCII format
strings this agrees with the JavaScript call. -/
def toLowerCaseJS (s : String) : String := String.mk (s.data.map Char.toLower)

/-- Line 92 and lines 96-103 of the server: `(options.outputFormat ||
metadata.format || 'png').toLowerCase()`, then validation and aliasing. -/
def resolveOutputFormat (outputFormat detectedFormat : Option String) : String :=
  sanitizeFormat (toLowerCaseJS (jsOrOpt outputFormat (jsOrOpt detectedFormat "png")))

/-- Per-character XML escaping of `xmlEscape` (server lines 48-63): the
five special characters map to their named entities, every other character
is kept. The JavaScript original is a global single-pass regex replace over
single characters, which is exactly this character-wise map. -/
def escChar (c : Char) : List Char :=
  if c = '<' then ['&', 'l', 't', ';']
  else if c = '>' then ['&', 'g', 't', ';']
  else if c = '&' then ['&', 'a', 'm', 'p', ';']
  else if c = '\'' then ['&', 'a', 'p', 'o', 's', ';']
  else if c = '"' then ['&', 'q', 'u', 'o', 't', ';']
  else [c]

/-- Concatenation of the per-character escapes over a character list. -/
def escRun : List Char → List Char
  | [] => []
  | c :: rest => escChar c ++ escRun rest

/-- The `xmlEscape` helper of the server (lines 48-63), restricted to string
inputs (the only call site passes a string). -/
def xmlEscape (s : String) : String := String.mk (escRun s.data)

/-- Left-pads a digit string with zeros to length `k`. -/
def padZeros (k : ℕ) (s : String) : String :=
  String.mk (List.replicate (k - s.length) '0') ++ s

/-- Models the JavaScript number-to-string conversion used when a number is
interpolated into the SVG template. Integers print without a decimal point,
exactly as in JavaScript; values with a finite decimal expansion (the stroke
widths produced here, such as 5/4) print as that expansion. Other rationals
fall back to the `Rat` representation; no theorem below depends on that
branch. -/
def jsNumToString (q : ℚ) : String :=
  if q.den = 1 then toString q.num
  else
    match (List.range 20).find? (fun k => 10 ^ (k + 1) % q.den == 0) with
    | some k =>
      let e := k + 1
      let scaled := q.num.natAbs * (10 ^ e / q.den)
      (if q.num < 0 then "-" else "") ++ toString (scaled / 10 ^ e) ++ "." ++
        padZeros e (toString (scaled % 10 ^ e))
    | none => toString q

/-- The raw styling fields gathered from the request body (server lines
189-200); every field is a string when present and absent otherwise. -/
structure RawOptions where
  fontFamily : Option String
  fontSize : Option String
  fontColor : Option String
  strokeColor : Option String
  strokeWidth : Option String
  xPosition : Option String
  yPosition : Option String
  textAlign : Option String
  dominantBaseline : Option String
  outputFormat : Option String

/-- The `textOpts` object of `addTextToImage` (server lines 81-103) after
format validation. -/
structure TextOpts where
  text : String
  fontFamily : String
  fontSize : ℚ
  fontColor : String
  strokeColor : String
  strokeWidth : ℚ
  xPosition : String
  yPosition : String
  textAlign : String
  dominantBaseline : String
  outputFormat : String

/-- Option resolution of `addTextToImage` (server lines 78-103): defaulting,
text escaping and output-format validation, given the image metadata
(pixel width, pixel height, detected format). -/
def mkTextOpts (textValue : String) (options : RawOptions) (w h : ℕ)
    (detectedFormat : Option String) : TextOpts :=
  let currentFontSize := resolveFontSize options.fontSize w h
  { text := xmlEscape (jsOrS textValue "Sample Text")
    fontFamily := jsOrOpt options.fontFamily "Arial"
    fontSize := currentFontSize
    fontColor := jsOrOpt options.fontColor "#FFFFFF"
    strokeColor := jsOrOpt options.strokeColor "#000000"
    strokeWidth := resolveStrokeWidth options.strokeWidth currentFontSize
    xPosition := jsOrOpt options.xPosition "50%"
    yPosition := jsOrOpt options.yPosition "50%"
    textAlign := jsOrOpt options.textAlign "middle"
    dominantBaseline := jsOrOpt options.dominantBaseline "middle"
    outputFormat := resolveOutputFormat options.outputFormat detectedFormat }

/-- The SVG template of `addTextToImage` (server lines 105-123), with the
resolved options interpolated. Concatenating the string literals below in
order reproduces the template literal of the source verbatim, including all
indentation and the CSS comments. -/
def svgText (w h : ℕ) (t : TextOpts) : String :=
  "\n          " ++ "<svg " ++ "width=\"" ++ toString w ++ "\" height=\"" ++ toString h
    ++ "\">" ++ "\n            "
    ++ "<style>\n              .title \x7b\n                "
    ++ "fill: \"" ++ t.fontColor ++ "\";" ++ "\n                "
    ++ "font-size: " ++ jsNumToString t.fontSize ++ "px;" ++ "\n                "
    ++ "font-family: \"" ++ t.fontFamily ++ "\";" ++ "\n                "
    ++ "text-anchor: \"" ++ t.textAlign ++ "\";" ++ "\n                "
    ++ "dominant-baseline: \"" ++ t.dominantBaseline ++ "\";" ++ "\n                "
    ++ "paint-order: stroke;" ++ " /* Ensures stroke is drawn behind fill */\n                "
    ++ "stroke: \"" ++ t.strokeColor ++ "\";" ++ "\n                "
    ++ "stroke-width: " ++ jsNumToString t.strokeWidth ++ "px;" ++ "\n                "
    ++ "stroke-linecap: round;" ++ " /* Smoother stroke ends */\n                "
    ++ "stroke-linejoin: round;" ++ " /* Smoother stroke joins */\n              \x7d\n            "
    ++ "</style>\n            "
    ++ "<text x=\"" ++ t.xPosition ++ "\" y=\"" ++ t.yPosition ++ "\" class=\"title\">"
    ++ t.text ++ "</text>"
    ++ "\n          " ++ "</svg>\n        "

/-- Outcome of the `POST /api/image/add-text` route, at the level of detail
the route itself controls: either an HTTP 400 with the JSON error message, or
an HTTP 200 carrying the `Content-Type` header value, the generated overlay
markup and the resolved output format (the pixel compositing and encoding are
delegated to the external image library and not modelled). -/
inductive Response where
  | badRequest (error : String) : Response
  | ok (contentType : String) (markup : String) (format : String) : Response
deriving DecidableEq

/-- The `Content-Type` header of a response, when one is set (line 204). -/
def Response.contentTypeHeader : Response → Option String
  | .badRequest _ => none
  | .ok ct _ _ => some ct

/-- The validation and dispatch of the `POST /api/image/add-text` handler
(server lines 176-205). `file` is the presence of `req.file`; `text` is the
`text` field, absent or a string. The guard of line 180,
`!req.body.text && req.body.text !== ""`, is kept literally for a present
string `t` as `(t == "") && (t != "")`; for an absent field both conjuncts of
the original hold, giving the second 400. -/
def handleAddText (file : Option Unit) (text : Option String) (options : RawOptions)
    (w h : ℕ) (detectedFormat : Option String) : Response :=
  match file, text with
  | none, _ => .badRequest "No image file uploaded."
  | some _, none => .badRequest "No text parameter provided for overlay."
  | some _, some t =>
    if (t == "") && (t != "") then .badRequest "No text parameter provided for overlay."
    else
      let opts := mkTextOpts t options w h detectedFormat
      .ok ("image/" ++ opts.outputFormat) (svgText w h opts) opts.outputFormat

/-- The set of formats the service can answer with, after validation and the
`jpg` alias: the `validFormats` whitelist minus the alias spelling. -/
def supportedFormats : List String := ["jpeg", "png", "webp", "tiff", "gif", "avif"]

/-- Bool test: the supplied field parses (via `parseInt`) to the integer 0. -/
def parsesToZero (o : Option String) : Bool :=
  match parseIntOpt o with
  | some n => n == 0
  | none => false

/-- Bool test: the supplied field parses (via `parseInt`) to a negative
integer. -/
def parsesToNeg (o : Option String) : Bool :=
  match parseIntOpt o with
  | some n => decide (n < 0)
  | none => false

/-- Checker for escaped text: no raw `<`, `>`, apostrophe or double quote
occurs, and every `&` is immediately followed by the tail of one of the five
named entities (`lt;`, `gt;`, `amp;`, `apos;`, `quot;`). -/
def noRawSpecials : List Char → Bool
  | [] => true
  | c :: rest =>
    if c = '<' ∨ c = '>' ∨ c = '\'' ∨ c = '"' then false
    else if c = '&' then
      if ['l', 't', ';'].isPrefixOf rest ∨ ['g', 't', ';'].isPrefixOf rest
          ∨ ['a', 'm', 'p', ';'].isPrefixOf rest
          ∨ ['a', 'p', 'o', 's', ';'].isPrefixOf rest
          ∨ ['q', 'u', 'o', 't', ';'].isPrefixOf rest then
        noRawSpecials rest
      else false
    else noRawSpecials rest

/-- Bool test: `pat` occurs as a contiguous segment of `l`. -/
def hasSeg (pat : List Char) : List Char → Bool
  | [] => pat.isEmpty
  | c :: rest => pat.isPrefixOf (c :: rest) || hasSeg pat rest

/-- Number of (possibly overlapping) occurrences of `pat` as a contiguous
segment of `l`; only used with nonempty patterns. -/
def countOcc (pat : List Char) : List Char → ℕ
  | [] => 0
  | c :: rest => (if pat.isPrefixOf (c :: rest) then 1 else 0) + countOcc pat rest

/-- The twelve values interpolated into the SVG template, in template
order. -/
def svgInterpolated (w h : ℕ) (t : TextOpts) : List String :=
  [toString w, toString h, t.fontColor, jsNumToString t.fontSize, t.fontFamily,
   t.textAlign, t.dominantBaseline, t.strokeColor, jsNumToString t.strokeWidth,
   t.xPosition, t.yPosition, t.text]

/-- Bool test: none of the interpolated template values contains the
character `<`. -/
def ltFreeAll (w h : ℕ) (t : TextOpts) : Bool :=
  (svgInterpolated w h t).all fun s => s.data.all fun c => c != '<'

/-- A concrete resolved option set (text `Hello`, fontSize 40, strokeWidth 2
supplied, everything else defaulted) on a 400 by 300 image, for witnesses. -/
def sampleOpts : TextOpts :=
  mkTextOpts "Hello" ⟨none, some "40", none, none, some "2", none, none, none, none, none⟩
    400 300 none

end Overlay

namespace C2D

/-- The environment variables read by `getImageBuffer` of the standalone
script (lines 161-164): `INPUT_FILE_PATH_0`, `INPUT_DID_0`,
`INPUT_IMAGE_URL` and `IMAGE_URL`, each absent or a string. -/
structure C2DEnv where
  inputFilePath0 : Option String
  inputDid0 : Option String
  inputImageUrl : Option String
  imageUrl : Option String

/-- The input and output effects `getImageBuffer` delegates, passed in as
oracles: `fileExists` and `readFile` model `fs.existsSync` and
`fs.promises.readFile`; `downloadOceanAsset` models the whole DID branch
body (DDO resolution, provider download and temp-file read), returning
`none` on any of its failure paths; `httpGet` models `axios.get`, returning
`none` when the request fails (the enclosing catch turns a throw into a null
result). Buffers are byte lists. -/
structure FetchWorld where
  fileExists : String → Bool
  readFile : String → List ℕ
  downloadOceanAsset : String → Option (List ℕ)
  httpGet : String → Option (List ℕ)

/-- JavaScript truthiness of a possibly-absent environment string:
`undefined` and the empty string are falsy. -/
def jsTruthyOpt : Option String → Bool
  | none => false
  | some s => !(s == "")

/-- The hard-coded fallback image of the script (line 164). -/
def defaultImageUrl : String :=
  "https://raw.githubusercontent.com/oceanprotocol/c2d-examples/main/custom_algorithm/lena.png"

/-- Models `process.env.INPUT_IMAGE_URL || process.env.IMAGE_URL`
(line 163). -/
def jsOrOpt2 (a b : Option String) : Option String := if jsTruthyOpt a then a else b

/-- The source-selection and fetch logic of `getImageBuffer` (script lines
160-211): a truthy `INPUT_FILE_PATH_0` wins and a missing file yields null;
otherwise a truthy `INPUT_DID_0` is used, yielding null without an Ocean
instance or when the download fails; otherwise a truthy
`INPUT_IMAGE_URL || IMAGE_URL` is fetched; otherwise the default URL is
fetched. -/
def getImageBuffer (env : C2DEnv) (hasOcean : Bool) (w : FetchWorld) : Option (List ℕ) :=
  if jsTruthyOpt env.inputFilePath0 then
    let inputFile := env.inputFilePath0.getD ""
    if w.fileExists inputFile then some (w.readFile inputFile) else none
  else if jsTruthyOpt env.inputDid0 then
    if hasOcean then w.downloadOceanAsset (env.inputDid0.getD "") else none
  else
    let inputUrl := jsOrOpt2 env.inputImageUrl env.imageUrl
    if jsTruthyOpt inputUrl then w.httpGet (inputUrl.getD "")
    else w.httpGet defaultImageUrl

/-- A concrete world where every source fails, for witnesses. -/
def sampleWorld : FetchWorld :=
  ⟨fun _ => false, fun _ => [], fun _ => none, fun _ => none⟩

end C2D

namespace Overlay

/-- The validation step always lands in the supported set. -/
theorem sanitizeFormat_mem (raw : String) : sanitizeFormat raw ∈ supportedFormats := by
  by_cases hc : validFormats.contains raw
  · have hm : raw ∈ validFormats := by simpa using hc
    fin_cases hm <;> decide
  · simp only [sanitizeFormat]
    rw [if_neg hc]
    decide

/-- Unfolding of the validation step as a two-way case split on the
whitelist. -/
theorem sanitizeFormat_eq (raw : String) :
    sanitizeFormat raw
      = if validFormats.contains raw then (if raw = "jpg" then "jpeg" else raw)
        else "png" := by
  by_cases hc : validFormats.contains raw
  · simp only [sanitizeFormat]
    rw [if_pos hc, if_pos hc]
  · simp only [sanitizeFormat]
    rw [if_neg hc, if_neg hc]
    decide

/-- Whatever is supplied and detected, the validated output format lies in
the supported set. -/
theorem resolveOutputFormat_mem (o d : Option String) :
    resolveOutputFormat o d ∈ supportedFormats :=
  sanitizeFormat_mem _

/-- C3: given no `fontSize`, the resolved font size is
`max(20, min(width, height) / 12)`, whatever the other fields hold. -/
theorem c3_default_font_size (textValue : String) (o : RawOptions) (w h : ℕ)
    (det : Option String) :
    (mkTextOpts textValue { o with fontSize := none } w h det).fontSize
      = max 20 (((min w h : ℕ) : ℚ) / 12) := rfl

/-- C3 witness: the default font size at a concrete 400 by 300 image. -/
theorem c3_default_font_size_witness :
    (mkTextOpts "Hi" ⟨none, none, none, none, none, none, none, none, none, none⟩
        400 300 none).fontSize = max 20 (((min 400 300 : ℕ) : ℚ) / 12) :=
  c3_default_font_size "Hi" ⟨none, none, none, none, none, none, none, none, none, none⟩
    400 300 none

/-- C4: given no `strokeWidth`, the resolved stroke width is
`max(1, resolvedFontSize / 20)` for the font size resolved for the same
request. -/
theorem c4_default_stroke_width (textValue : String) (o : RawOptions) (w h : ℕ)
    (det : Option String) :
    (mkTextOpts textValue { o with strokeWidth := none } w h det).strokeWidth
      = max 1 ((mkTextOpts textValue { o with strokeWidth := none } w h det).fontSize / 20) := rfl

/-- C4 witness: the default stroke width at a concrete request that also
supplies a font size. -/
theorem c4_default_stroke_width_witness :
    (mkTextOpts "Hi" ⟨none, some "40", none, none, none, none, none, none, none, none⟩
        400 300 none).strokeWidth
      = max 1 ((mkTextOpts "Hi" ⟨none, some "40", none, none, none, none, none, none, none, none⟩
        400 300 none).fontSize / 20) :=
  c4_default_stroke_width "Hi"
    ⟨none, some "40", none, none, none, none, none, none, none, none⟩ 400 300 none

/-- C1 counterexample: with no supplied format and a detected source format
outside the whitelist (sharp reports `heif` for an AVIF upload), the code
resolves to `png`, not to the detected format as the claim states for the
no-format-supplied case. -/
theorem c1_counterexample :
    resolveOutputFormat none (some "heif") = "png" ∧ ("png" : String) ≠ "heif" := by
  constructor
  · decide
  · decide

/-- C1 (amended): a nonempty supplied format that case-folds into the
whitelist resolves inside the supported set with `jpg` going to `jpeg`; a
nonempty supplied format outside the whitelist resolves to `png`; an empty
supplied format is treated as absent; with no supplied format the resolved
format is the case-folded detected format when that is in the whitelist
(`jpg` again going to `jpeg`) and `png` otherwise, including when nothing is
detected. -/
theorem c1_format_resolution (s : String) (d : Option String) :
    (resolveOutputFormat (some s) d
        = if s = "" then resolveOutputFormat none d
          else if validFormats.contains (toLowerCaseJS s) then
            (if toLowerCaseJS s = "jpg" then "jpeg" else toLowerCaseJS s)
          else "png") ∧
    (resolveOutputFormat none d
        = match d with
          | none => "png"
          | some ds =>
            if ds = "" then "png"
            else if validFormats.contains (toLowerCaseJS ds) then
              (if toLowerCaseJS ds = "jpg" then "jpeg" else toLowerCaseJS ds)
            else "png") ∧
    resolveOutputFormat (some s) d ∈ supportedFormats ∧
    resolveOutputFormat none d ∈ supportedFormats := by
  refine ⟨?_, ?_, resolveOutputFormat_mem _ _, resolveOutputFormat_mem _ _⟩
  · by_cases hs : s = ""
    · simp [resolveOutputFormat, jsOrOpt, hs]
    · simp only [resolveOutputFormat, jsOrOpt, if_neg hs]
      exact sanitizeFormat_eq (toLowerCaseJS s)
  · match d with
    | none => decide
    | some ds =>
      by_cases hd : ds = ""
      · simp only [resolveOutputFormat, jsOrOpt, if_pos hd]
        decide
      · simp only [resolveOutputFormat, jsOrOpt, if_neg hd]
        exact sanitizeFormat_eq (toLowerCaseJS ds)

/-- C1 witness: the format-resolution theorem at the supplied string `JPG`
with detected format `gif`. -/
theorem c1_format_resolution_witness :
    (resolveOutputFormat (some "JPG") (some "gif")
        = if ("JPG" : String) = "" then resolveOutputFormat none (some "gif")
          else if validFormats.contains (toLowerCaseJS "JPG") then
            (if toLowerCaseJS "JPG" = "jpg" then "jpeg" else toLowerCaseJS "JPG")
          else "png") ∧
    (resolveOutputFormat none (some "gif")
        = match (some "gif" : Option String) with
          | none => "png"
          | some ds =>
            if ds = "" then "png"
            else if validFormats.contains (toLowerCaseJS ds) then
              (if toLowerCaseJS ds = "jpg" then "jpeg" else toLowerCaseJS ds)
            else "png") ∧
    resolveOutputFormat (some "JPG") (some "gif") ∈ supportedFormats ∧
    resolveOutputFormat none (some "gif") ∈ supportedFormats :=
  c1_format_resolution "JPG" (some "gif")

/-- C5 counterexample: the positivity invariant fails on the resolved
options. A supplied `strokeWidth` of `"0"` resolves to stroke width 0, and a
supplied `fontSize` of `"-5"` resolves to font size -5. -/
theorem c5_counterexample :
    ¬(0 < resolveStrokeWidth (some "0") (resolveFontSize none 400 300)) ∧
    ¬(0 < resolveFontSize (some "-5") 400 300) := by decide

/-- C5 (amended): for every input, the resolved output format lies in the
supported set and the resolved stroke width is non-negative; the resolved
stroke width is strictly positive unless the supplied `strokeWidth` parses to
the integer 0, and the resolved font size is strictly positive unless the
supplied `fontSize` parses to a negative integer. -/
theorem c5_resolved_invariants (fsOpt swOpt fmtOpt det : Option String) (w h : ℕ) :
    resolveOutputFormat fmtOpt det ∈ supportedFormats ∧
    (0 : ℚ) ≤ resolveStrokeWidth swOpt (resolveFontSize fsOpt w h) ∧
    (0 < resolveStrokeWidth swOpt (resolveFontSize fsOpt w h) ∨ parsesToZero swOpt = true) ∧
    (0 < resolveFontSize fsOpt w h ∨ parsesToNeg fsOpt = true) := by
  have hmax1 : ∀ x : ℚ, (0 : ℚ) < max 1 x :=
    fun x => lt_of_lt_of_le one_pos (le_max_left 1 x)
  have hmax20 : ∀ x : ℚ, (0 : ℚ) < max 20 x :=
    fun x => lt_of_lt_of_le (by norm_num) (le_max_left 20 x)
  have hfs : 0 < resolveFontSize fsOpt w h ∨ parsesToNeg fsOpt = true := by
    cases hp : parseIntOpt fsOpt with
    | none =>
      simp only [resolveFontSize, hp]
      exact Or.inl (hmax20 _)
    | some n =>
      by_cases hn : n = 0
      · simp only [resolveFontSize, hp, hn, if_pos rfl]
        exact Or.inl (hmax20 _)
      · simp only [resolveFontSize, hp, if_neg hn]
        rcases lt_trichotomy n 0 with h | h | h
        · refine Or.inr ?_
          simp [parsesToNeg, hp, h]
        · exact absurd h hn
        · exact Or.inl (by exact_mod_cast h)
  have hsw : (0 : ℚ) ≤ resolveStrokeWidth swOpt (resolveFontSize fsOpt w h) ∧
      (0 < resolveStrokeWidth swOpt (resolveFontSize fsOpt w h) ∨ parsesToZero swOpt = true) := by
    cases hp : parseIntOpt swOpt with
    | none =>
      simp only [resolveStrokeWidth, hp]
      exact ⟨(hmax1 _).le, Or.inl (hmax1 _)⟩
    | some n =>
      by_cases hn : (0 : ℤ) ≤ n
      · simp only [resolveStrokeWidth, hp, if_pos hn]
        refine ⟨by exact_mod_cast hn, ?_⟩
        rcases eq_or_lt_of_le hn with h | h
        · refine Or.inr ?_
          simp [parsesToZero, hp, ← h]
        · exact Or.inl (by exact_mod_cast h)
      · simp only [resolveStrokeWidth, hp, if_neg hn]
        exact ⟨(hmax1 _).le, Or.inl (hmax1 _)⟩
  exact ⟨resolveOutputFormat_mem _ _, hsw.1, hsw.2, hfs⟩

/-- C5 witness: the invariants theorem at a concrete request supplying
fontSize 40, strokeWidth 2 and format JPG on a 400 by 300 png image. -/
theorem c5_resolved_invariants_witness :
    resolveOutputFormat (some "JPG") (some "png") ∈ supportedFormats ∧
    (0 : ℚ) ≤ resolveStrokeWidth (some "2") (resolveFontSize (some "40") 400 300) ∧
    (0 < resolveStrokeWidth (some "2") (resolveFontSize (some "40") 400 300)
      ∨ parsesToZero (some "2") = true) ∧
    (0 < resolveFontSize (some "40") 400 300 ∨ parsesToNeg (some "40") = true) :=
  c5_resolved_invariants (some "40") (some "2") (some "JPG") (some "png") 400 300

/-- A list is a prefix of itself followed by anything. -/
theorem isPrefixOf_append_self (p u : List Char) : p.isPrefixOf (p ++ u) = true := by
  induction p with
  | nil => simp [List.isPrefixOf]
  | cons c p ih => simp [List.isPrefixOf, ih]

/-- A segment is found when the pattern is a prefix. -/
theorem hasSeg_of_isPrefixOf (pat l : List Char) (h : pat.isPrefixOf l = true) :
    hasSeg pat l = true := by
  cases l with
  | nil =>
    cases pat with
    | nil => rfl
    | cons c p => simp [List.isPrefixOf] at h
  | cons c rest => simp [hasSeg, h]

/-- A segment of the right part is a segment of an append. -/
theorem hasSeg_append_right (pat a b : List Char) (h : hasSeg pat b = true) :
    hasSeg pat (a ++ b) = true := by
  induction a with
  | nil => simpa using h
  | cons c a ih => simp [hasSeg, ih]

/-- Exhibiting a split of `l` around `pat` proves the segment search. -/
theorem hasSeg_of_eq (pat l pre suf : List Char) (h : l = pre ++ pat ++ suf) :
    hasSeg pat l = true := by
  subst h
  rw [List.append_assoc]
  exact hasSeg_append_right pat pre (pat ++ suf)
    (hasSeg_of_isPrefixOf _ _ (isPrefixOf_append_self pat suf))

/-- A special character never occurs in any single-character escape. -/
theorem escChar_not_mem (x c : Char)
    (hx : x = '<' ∨ x = '>' ∨ x = '\'' ∨ x = '"') : x ∉ escChar c := by
  rcases hx with rfl | rfl | rfl | rfl <;>
    (unfold escChar
     split_ifs with h1 h2 h3 h4 h5 <;>
       first
         | decide
         | (simp only [List.mem_singleton]
            intro h
            first
              | exact h1 h.symm
              | exact h2 h.symm
              | exact h4 h.symm
              | exact h5 h.symm))

/-- A special character never occurs raw in an escaped run. -/
theorem escRun_not_mem (l : List Char) (x : Char)
    (hx : x = '<' ∨ x = '>' ∨ x = '\'' ∨ x = '"') : x ∉ escRun l := by
  induction l with
  | nil => simp [escRun]
  | cons c l ih =>
    simp only [escRun, List.mem_append]
    rintro (h | h)
    · exact escChar_not_mem x c hx h
    · exact ih h

/-- Skipping one ordinary character preserves the raw-specials check. -/
theorem noRawSpecials_cons (c : Char) (l : List Char)
    (h1 : ¬(c = '<' ∨ c = '>' ∨ c = '\'' ∨ c = '"')) (h2 : ¬c = '&') :
    noRawSpecials (c :: l) = noRawSpecials l := by
  simp only [noRawSpecials]
  rw [if_neg h1, if_neg h2]

/-- Skipping a run of ordinary characters preserves the raw-specials
check. -/
theorem noRawSpecials_append_plain (a l : List Char)
    (h : ∀ c ∈ a, ¬(c = '<' ∨ c = '>' ∨ c = '\'' ∨ c = '"') ∧ ¬c = '&') :
    noRawSpecials (a ++ l) = noRawSpecials l := by
  induction a with
  | nil => rfl
  | cons c a ih =>
    rw [List.cons_append,
      noRawSpecials_cons c _ (h c (List.mem_cons_self c a)).1 (h c (List.mem_cons_self c a)).2,
      ih fun x hx => h x (List.mem_cons_of_mem c hx)]

/-- An ampersand followed by one of the five entity tails passes the
raw-specials check at that position. -/
theorem noRawSpecials_amp_entity (rest : List Char)
    (ht : ['l', 't', ';'].isPrefixOf rest = true ∨ ['g', 't', ';'].isPrefixOf rest = true
        ∨ ['a', 'm', 'p', ';'].isPrefixOf rest = true
        ∨ ['a', 'p', 'o', 's', ';'].isPrefixOf rest = true
        ∨ ['q', 'u', 'o', 't', ';'].isPrefixOf rest = true) :
    noRawSpecials ('&' :: rest) = noRawSpecials rest := by
  simp only [noRawSpecials]
  rw [if_neg (by decide), if_pos trivial, if_pos ht]

/-- Escaped runs contain no raw special characters: every escaped character
contributes either an ordinary character or a full named entity. -/
theorem escRun_no_raw (l : List Char) : noRawSpecials (escRun l) = true := by
  induction l with
  | nil => rfl
  | cons c l ih =>
    by_cases h1 : c = '<'
    · subst h1
      show noRawSpecials ('&' :: (['l', 't', ';'] ++ escRun l)) = true
      rw [noRawSpecials_amp_entity _ (Or.inl (by simp [List.isPrefixOf])),
        noRawSpecials_append_plain _ _ (by decide)]
      exact ih
    · by_cases h2 : c = '>'
      · subst h2
        show noRawSpecials ('&' :: (['g', 't', ';'] ++ escRun l)) = true
        rw [noRawSpecials_amp_entity _ (Or.inr (Or.inl (by simp [List.isPrefixOf]))),
          noRawSpecials_append_plain _ _ (by decide)]
        exact ih
      · by_cases h3 : c = '&'
        · subst h3
          show noRawSpecials ('&' :: (['a', 'm', 'p', ';'] ++ escRun l)) = true
          rw [noRawSpecials_amp_entity _ (Or.inr (Or.inr (Or.inl (by simp [List.isPrefixOf])))),
            noRawSpecials_append_plain _ _ (by decide)]
          exact ih
        · by_cases h4 : c = '\''
          · subst h4
            show noRawSpecials ('&' :: (['a', 'p', 'o', 's', ';'] ++ escRun l)) = true
            rw [noRawSpecials_amp_entity _
                (Or.inr (Or.inr (Or.inr (Or.inl (by simp [List.isPrefixOf]))))),
              noRawSpecials_append_plain _ _ (by decide)]
            exact ih
          · by_cases h5 : c = '"'
            · subst h5
              show noRawSpecials ('&' :: (['q', 'u', 'o', 't', ';'] ++ escRun l)) = true
              rw [noRawSpecials_amp_entity _
                  (Or.inr (Or.inr (Or.inr (Or.inr (by simp [List.isPrefixOf]))))),
                noRawSpecials_append_plain _ _ (by decide)]
              exact ih
            · have he : escChar c = [c] := by
                simp only [escChar, if_neg h1, if_neg h2, if_neg h3, if_neg h4, if_neg h5]
              show noRawSpecials (escChar c ++ escRun l) = true
              rw [he, List.singleton_append,
                noRawSpecials_cons c _ (by push_neg; exact ⟨h1, h2, h4, h5⟩) h3]
              exact ih

/-- The escape of every character of the input occurs as a segment of the
escaped output. -/
theorem escRun_hasSeg (l : List Char) (c : Char) (hc : c ∈ l) :
    hasSeg (escChar c) (escRun l) = true := by
  induction l with
  | nil => cases hc
  | cons a l ih =>
    rcases List.mem_cons.mp hc with h | h
    · subst h
      exact hasSeg_of_eq _ _ [] (escRun l) (by simp [escRun])
    · show hasSeg (escChar c) (escChar a ++ escRun l) = true
      exact hasSeg_append_right _ _ _ (ih h)

/-- C2: for every input string, the escaped text contains no raw `<`, `>`,
apostrophe or double quote; every `&` in it starts one of the five named
entities (so no raw `&` remains either); each special character maps to its
named entity (`&lt;`, `&gt;`, `&amp;`, `&apos;`, `&quot;`); and the escape of
every character of the input occurs in the output. -/
theorem c2_xml_escaping (s : String) :
    noRawSpecials (xmlEscape s).data = true ∧
    '<' ∉ (xmlEscape s).data ∧ '>' ∉ (xmlEscape s).data ∧
    '\'' ∉ (xmlEscape s).data ∧ '"' ∉ (xmlEscape s).data ∧
    escChar '<' = ("&lt;" : String).data ∧ escChar '>' = ("&gt;" : String).data ∧
    escChar '&' = ("&amp;" : String).data ∧ escChar '\'' = ("&apos;" : String).data ∧
    escChar '"' = ("&quot;" : String).data ∧
    (s.data.all fun c => hasSeg (escChar c) (xmlEscape s).data) = true := by
  refine ⟨escRun_no_raw s.data, ?_, ?_, ?_, ?_, by decide, by decide, by decide, by decide,
    by decide, ?_⟩
  · exact escRun_not_mem s.data '<' (Or.inl rfl)
  · exact escRun_not_mem s.data '>' (Or.inr (Or.inl rfl))
  · exact escRun_not_mem s.data '\'' (Or.inr (Or.inr (Or.inl rfl)))
  · exact escRun_not_mem s.data '"' (Or.inr (Or.inr (Or.inr rfl)))
  · rw [List.all_eq_true]
    intro c hc
    exact escRun_hasSeg s.data c hc

/-- C2 witness: the escaping theorem applied to a string holding all five
special characters. -/
theorem c2_xml_escaping_witness :
    noRawSpecials (xmlEscape "a<b>c&d\'e\"f").data = true ∧
    '<' ∉ (xmlEscape "a<b>c&d\'e\"f").data ∧ '>' ∉ (xmlEscape "a<b>c&d\'e\"f").data ∧
    '\'' ∉ (xmlEscape "a<b>c&d\'e\"f").data ∧ '"' ∉ (xmlEscape "a<b>c&d\'e\"f").data ∧
    escChar '<' = ("&lt;" : String).data ∧ escChar '>' = ("&gt;" : String).data ∧
    escChar '&' = ("&amp;" : String).data ∧ escChar '\'' = ("&apos;" : String).data ∧
    escChar '"' = ("&quot;" : String).data ∧
    (("a<b>c&d\'e\"f" : String).data.all
      fun c => hasSeg (escChar c) (xmlEscape "a<b>c&d\'e\"f").data) = true :=
  c2_xml_escaping "a<b>c&d\'e\"f"

/-- The character list of a concatenation is the concatenation of the
character lists. -/
theorem str_data_append (s t : String) : (s ++ t).data = s.data ++ t.data := by
  cases s
  cases t
  rfl

/-- Peeling a shared prefix off a prefix test. -/
theorem isPrefixOf_append_same (x y z : List Char) :
    (x ++ y).isPrefixOf (x ++ z) = y.isPrefixOf z := by
  induction x with
  | nil => rfl
  | cons c x ih => simp [List.isPrefixOf, ih]

/-- The generated markup opens with an svg element declaring exactly the
base image pixel dimensions. -/
theorem svgText_dims_seg (w h : ℕ) (t : TextOpts) :
    hasSeg (("<svg " ++ "width=\"" ++ toString w ++ "\" height=\"" ++ toString h ++ "\">")
        : String).data
      (svgText w h t).data = true := by
  simp only [svgText, str_data_append, List.append_assoc]
  iterate 1 apply hasSeg_append_right
  apply hasSeg_of_isPrefixOf
  simp only [isPrefixOf_append_same]
  exact isPrefixOf_append_self _ _

/-- The generated markup carries the full resolved style block: fill color,
font size, font family, text anchor, dominant baseline, paint order stroke,
stroke color, stroke width and round stroke linecap and linejoin. -/
theorem svgText_style_seg (w h : ℕ) (t : TextOpts) :
    hasSeg (("fill: \"" ++ t.fontColor ++ "\";" ++ "\n                "
        ++ "font-size: " ++ jsNumToString t.fontSize ++ "px;" ++ "\n                "
        ++ "font-family: \"" ++ t.fontFamily ++ "\";" ++ "\n                "
        ++ "text-anchor: \"" ++ t.textAlign ++ "\";" ++ "\n                "
        ++ "dominant-baseline: \"" ++ t.dominantBaseline ++ "\";" ++ "\n                "
        ++ "paint-order: stroke;" ++ " /* Ensures stroke is drawn behind fill */\n                "
        ++ "stroke: \"" ++ t.strokeColor ++ "\";" ++ "\n                "
        ++ "stroke-width: " ++ jsNumToString t.strokeWidth ++ "px;" ++ "\n                "
        ++ "stroke-linecap: round;" ++ " /* Smoother stroke ends */\n                "
        ++ "stroke-linejoin: round;") : String).data
      (svgText w h t).data = true := by
  simp only [svgText, str_data_append, List.append_assoc]
  iterate 9 apply hasSeg_append_right
  apply hasSeg_of_isPrefixOf
  simp only [isPrefixOf_append_same]
  exact isPrefixOf_append_self _ _

/-- The generated markup carries one full text node at the resolved
coordinates, with the title class and the escaped text as its content. -/
theorem svgText_textnode_seg (w h : ℕ) (t : TextOpts) :
    hasSeg (("<text x=\"" ++ t.xPosition ++ "\" y=\"" ++ t.yPosition ++ "\" class=\"title\">"
        ++ t.text ++ "</text>") : String).data
      (svgText w h t).data = true := by
  simp only [svgText, str_data_append, List.append_assoc]
  iterate 44 apply hasSeg_append_right
  apply hasSeg_of_isPrefixOf
  simp only [isPrefixOf_append_same]
  exact isPrefixOf_append_self _ _

/-- C7: the route answers 400 `No image file uploaded.` exactly when the
upload is missing (whatever the text field holds), 400 `No text parameter
provided for overlay.` exactly when the text field is entirely absent, and
neither error when the file is present and the text field is present, even
as the empty string; in the error cases the response carries no markup and
no content type (no image processing occurs in the model). -/
theorem c7_route_validation (t : String) (anyText : Option String) (o : RawOptions)
    (w h : ℕ) (det : Option String) :
    handleAddText none anyText o w h det = Response.badRequest "No image file uploaded." ∧
    handleAddText (some ()) none o w h det
      = Response.badRequest "No text parameter provided for overlay." ∧
    handleAddText (some ()) (some t) o w h det
      ≠ Response.badRequest "No image file uploaded." ∧
    handleAddText (some ()) (some t) o w h det
      ≠ Response.badRequest "No text parameter provided for overlay." := by
  refine ⟨rfl, rfl, ?_, ?_⟩ <;> simp [handleAddText]

/-- C7 witness: the route validation theorem at the empty text string, which
is accepted, and at a concrete request. -/
theorem c7_route_validation_witness :
    handleAddText none (some "x") ⟨none, none, none, none, none, none, none, none, none, none⟩
        400 300 none = Response.badRequest "No image file uploaded." ∧
    handleAddText (some ()) none ⟨none, none, none, none, none, none, none, none, none, none⟩
        400 300 none = Response.badRequest "No text parameter provided for overlay." ∧
    handleAddText (some ()) (some "")
        ⟨none, none, none, none, none, none, none, none, none, none⟩ 400 300 none
      ≠ Response.badRequest "No image file uploaded." ∧
    handleAddText (some ()) (some "")
        ⟨none, none, none, none, none, none, none, none, none, none⟩ 400 300 none
      ≠ Response.badRequest "No text parameter provided for overlay." :=
  c7_route_validation "" (some "x")
    ⟨none, none, none, none, none, none, none, none, none, none⟩ 400 300 none

/-- C9: a present-but-empty text field is accepted, and since the empty
string is falsy in `textValue || "Sample Text"` (line 82), the text node of
the generated markup holds exactly the placeholder `Sample Text`. -/
theorem c9_empty_text_placeholder (o : RawOptions) (w h : ℕ) (det : Option String) :
    (mkTextOpts "" o w h det).text = "Sample Text" ∧
    handleAddText (some ()) (some "") o w h det
      ≠ Response.badRequest "No text parameter provided for overlay." ∧
    handleAddText (some ()) (some "") o w h det
      ≠ Response.badRequest "No image file uploaded." ∧
    hasSeg (("<text x=\"" ++ (mkTextOpts "" o w h det).xPosition ++ "\" y=\""
        ++ (mkTextOpts "" o w h det).yPosition ++ "\" class=\"title\">"
        ++ "Sample Text" ++ "</text>") : String).data
      (svgText w h (mkTextOpts "" o w h det)).data = true := by
  have htext : (mkTextOpts "" o w h det).text = "Sample Text" := rfl
  refine ⟨htext, ?_, ?_, ?_⟩
  · simp [handleAddText]
  · simp [handleAddText]
  · have hseg := svgText_textnode_seg w h (mkTextOpts "" o w h det)
    rw [htext] at hseg
    exact hseg

/-- C9 witness: the placeholder theorem at a concrete 400 by 300 request. -/
theorem c9_empty_text_placeholder_witness :
    (mkTextOpts "" ⟨none, none, none, none, none, none, none, none, none, none⟩
        400 300 none).text = "Sample Text" ∧
    handleAddText (some ()) (some "")
        ⟨none, none, none, none, none, none, none, none, none, none⟩ 400 300 none
      ≠ Response.badRequest "No text parameter provided for overlay." ∧
    handleAddText (some ()) (some "")
        ⟨none, none, none, none, none, none, none, none, none, none⟩ 400 300 none
      ≠ Response.badRequest "No image file uploaded." ∧
    hasSeg (("<text x=\""
        ++ (mkTextOpts "" ⟨none, none, none, none, none, none, none, none, none, none⟩
            400 300 none).xPosition ++ "\" y=\""
        ++ (mkTextOpts "" ⟨none, none, none, none, none, none, none, none, none, none⟩
            400 300 none).yPosition ++ "\" class=\"title\">"
        ++ "Sample Text" ++ "</text>") : String).data
      (svgText 400 300 (mkTextOpts ""
        ⟨none, none, none, none, none, none, none, none, none, none⟩ 400 300 none)).data
      = true :=
  c9_empty_text_placeholder ⟨none, none, none, none, none, none, none, none, none, none⟩
    400 300 none

/-- One scan step of the occurrence counter when the pattern does not match
here. -/
theorem countOcc_cons_of_not_prefix (pat : List Char) (c : Char) (l : List Char)
    (h : pat.isPrefixOf (c :: l) = false) :
    countOcc pat (c :: l) = countOcc pat l := by
  simp [countOcc, h]

/-- The `<text` pattern cannot match at a character other than `<`. -/
theorem countOcc_cons_ne (c : Char) (l : List Char) (h : ¬c = '<') :
    countOcc ("<text" : String).data (c :: l) = countOcc ("<text" : String).data l := by
  apply countOcc_cons_of_not_prefix
  rw [show ("<text" : String).data = '<' :: ("text" : String).data from by decide]
  have hb : ('<' == c) = false := by
    simp only [beq_eq_false_iff_ne, ne_eq]
    exact fun hh => h hh.symm
  simp [List.isPrefixOf, hb]

/-- Scanning across a run without `<` finds no `<text` occurrence. -/
theorem countOcc_cancel (a b : List Char) (ha : '<' ∉ a) :
    countOcc ("<text" : String).data (a ++ b) = countOcc ("<text" : String).data b := by
  induction a with
  | nil => rfl
  | cons c a ih =>
    have hc : ¬c = '<' := fun hh => ha (by subst hh; exact List.mem_cons_self _ _)
    rw [List.cons_append, countOcc_cons_ne c _ hc,
      ih fun hm => ha (List.mem_cons_of_mem c hm)]

/-- A `<` not followed by `t` starts no `<text` occurrence. -/
theorem countOcc_skip_lt (c : Char) (l : List Char) (h : ¬c = 't') :
    countOcc ("<text" : String).data ('<' :: c :: l)
      = countOcc ("<text" : String).data (c :: l) := by
  apply countOcc_cons_of_not_prefix
  rw [show ("<text" : String).data = '<' :: 't' :: ("ext" : String).data from by decide]
  have hb : ('t' == c) = false := by
    simp only [beq_eq_false_iff_ne, ne_eq]
    exact fun hh => h hh.symm
  simp [List.isPrefixOf, hb]

/-- A literal `<text` head is counted exactly once, and scanning resumes one
character later. -/
theorem countOcc_hit (l : List Char) :
    countOcc ("<text" : String).data ('<' :: 't' :: 'e' :: 'x' :: 't' :: l)
      = 1 + countOcc ("<text" : String).data ('t' :: 'e' :: 'x' :: 't' :: l) := by
  have hp : ("<text" : String).data.isPrefixOf ('<' :: 't' :: 'e' :: 'x' :: 't' :: l)
      = true := by
    rw [show ("<text" : String).data = ['<', 't', 'e', 'x', 't'] from by decide]
    simp [List.isPrefixOf]
  simp [countOcc, hp]

/-- Exposing the first two characters of a chunk in front of an append. -/
theorem append_expose2 (c1 c2 : Char) (l r : List Char) :
    (c1 :: c2 :: l) ++ r = c1 :: c2 :: (l ++ r) := rfl

/-- Exposing the first five characters of a chunk in front of an append. -/
theorem append_expose5 (c1 c2 c3 c4 c5 : Char) (l r : List Char) :
    (c1 :: c2 :: c3 :: c4 :: c5 :: l) ++ r = c1 :: c2 :: c3 :: c4 :: c5 :: (l ++ r) := rfl

set_option maxRecDepth 8000 in
/-- C8 counterexample: the styling fields are interpolated into the template
unescaped, so a `fontFamily` of `<text` makes the markup contain two `<text`
occurrences, falsifying the exactly-one-text-node claim as stated for every
input (the request also supplies fontSize 40 and strokeWidth 2). -/
theorem c8_counterexample :
    countOcc ("<text" : String).data
      (svgText 100 50 (mkTextOpts "Hello"
        ⟨some "<text", some "40", none, none, some "2", none, none, none, none, none⟩
        100 50 none)).data = 2 ∧ (2 : ℕ) ≠ 1 := by
  constructor
  · decide
  · decide

/-- C8 (amended): for every image size and resolved option set whose
interpolated values contain no `<` character (the escaped text never does;
the styling fields are interpolated raw), the markup contains exactly one
`<text` occurrence; and, for every input, it declares an svg element sized
exactly to the base image pixel width and height, carries the full resolved
style block (fill color, font size, font family, text anchor, dominant
baseline, stroke painted behind fill, stroke color, stroke width, round
stroke linecap and linejoin), and carries the text node at the resolved
`(xPosition, yPosition)` with the title class and the escaped text. -/
theorem c8_markup_structure (w h : ℕ) (t : TextOpts) :
    (ltFreeAll w h t = true →
      countOcc ("<text" : String).data (svgText w h t).data = 1) ∧
    hasSeg (("<svg " ++ "width=\"" ++ toString w ++ "\" height=\"" ++ toString h ++ "\">")
        : String).data (svgText w h t).data = true ∧
    hasSeg (("fill: \"" ++ t.fontColor ++ "\";" ++ "\n                "
        ++ "font-size: " ++ jsNumToString t.fontSize ++ "px;" ++ "\n                "
        ++ "font-family: \"" ++ t.fontFamily ++ "\";" ++ "\n                "
        ++ "text-anchor: \"" ++ t.textAlign ++ "\";" ++ "\n                "
        ++ "dominant-baseline: \"" ++ t.dominantBaseline ++ "\";" ++ "\n                "
        ++ "paint-order: stroke;" ++ " /* Ensures stroke is drawn behind fill */\n                "
        ++ "stroke: \"" ++ t.strokeColor ++ "\";" ++ "\n                "
        ++ "stroke-width: " ++ jsNumToString t.strokeWidth ++ "px;" ++ "\n                "
        ++ "stroke-linecap: round;" ++ " /* Smoother stroke ends */\n                "
        ++ "stroke-linejoin: round;") : String).data (svgText w h t).data = true ∧
    hasSeg (("<text x=\"" ++ t.xPosition ++ "\" y=\"" ++ t.yPosition ++ "\" class=\"title\">"
        ++ t.text ++ "</text>") : String).data (svgText w h t).data = true := by
  refine ⟨fun hfree => ?_, svgText_dims_seg w h t, svgText_style_seg w h t,
    svgText_textnode_seg w h t⟩
  have hall : ∀ s ∈ svgInterpolated w h t, '<' ∉ s.data := by
    intro s hs hm
    have h1 := List.all_eq_true.mp hfree s hs
    have h2 := List.all_eq_true.mp h1 '<' hm
    simp at h2
  have hW := hall (toString w) (by simp [svgInterpolated])
  have hH := hall (toString h) (by simp [svgInterpolated])
  have hFC := hall t.fontColor (by simp [svgInterpolated])
  have hFS := hall (jsNumToString t.fontSize) (by simp [svgInterpolated])
  have hFF := hall t.fontFamily (by simp [svgInterpolated])
  have hTA := hall t.textAlign (by simp [svgInterpolated])
  have hDB := hall t.dominantBaseline (by simp [svgInterpolated])
  have hSC := hall t.strokeColor (by simp [svgInterpolated])
  have hSW := hall (jsNumToString t.strokeWidth) (by simp [svgInterpolated])
  have hX := hall t.xPosition (by simp [svgInterpolated])
  have hY := hall t.yPosition (by simp [svgInterpolated])
  have hT := hall t.text (by simp [svgInterpolated])
  simp only [svgText, str_data_append, List.append_assoc]
  rw [countOcc_cancel _ _ (by decide)]
  rw [append_expose2]
  rw [countOcc_skip_lt 's' _ (by decide)]
  rw [countOcc_cons_ne 's' _ (by decide)]
  rw [countOcc_cancel _ _ (by decide)]
  rw [countOcc_cancel _ _ (by decide)]
  rw [countOcc_cancel _ _ hW]
  rw [countOcc_cancel _ _ (by decide)]
  rw [countOcc_cancel _ _ hH]
  rw [countOcc_cancel _ _ (by decide)]
  rw [countOcc_cancel _ _ (by decide)]
  rw [append_expose2]
  rw [countOcc_skip_lt 's' _ (by decide)]
  rw [countOcc_cons_ne 's' _ (by decide)]
  rw [countOcc_cancel _ _ (by decide)]
  rw [countOcc_cancel _ _ (by decide)]
  rw [countOcc_cancel _ _ hFC]
  rw [countOcc_cancel _ _ (by decide)]
  rw [countOcc_cancel _ _ (by decide)]
  rw [countOcc_cancel _ _ (by decide)]
  rw [countOcc_cancel _ _ hFS]
  rw [countOcc_cancel _ _ (by decide)]
  rw [countOcc_cancel _ _ (by decide)]
  rw [countOcc_cancel _ _ (by decide)]
  rw [countOcc_cancel _ _ hFF]
  rw [countOcc_cancel _ _ (by decide)]
  rw [countOcc_cancel _ _ (by decide)]
  rw [countOcc_cancel _ _ (by decide)]
  rw [countOcc_cancel _ _ hTA]
  rw [countOcc_cancel _ _ (by decide)]
  rw [countOcc_cancel _ _ (by decide)]
  rw [countOcc_cancel _ _ (by decide)]
  rw [countOcc_cancel _ _ hDB]
  rw [countOcc_cancel _ _ (by decide)]
  rw [countOcc_cancel _ _ (by decide)]
  rw [countOcc_cancel _ _ (by decide)]
  rw [countOcc_cancel _ _ (by decide)]
  rw [countOcc_cancel _ _ (by decide)]
  rw [countOcc_cancel _ _ hSC]
  rw [countOcc_cancel _ _ (by decide)]
  rw [countOcc_cancel _ _ (by decide)]
  rw [countOcc_cancel _ _ (by decide)]
  rw [countOcc_cancel _ _ hSW]
  rw [countOcc_cancel _ _ (by decide)]
  rw [countOcc_cancel _ _ (by decide)]
  rw [countOcc_cancel _ _ (by decide)]
  rw [countOcc_cancel _ _ (by decide)]
  rw [countOcc_cancel _ _ (by decide)]
  rw [countOcc_cancel _ _ (by decide)]
  rw [append_expose2]
  rw [countOcc_skip_lt '/' _ (by decide)]
  rw [countOcc_cons_ne '/' _ (by decide)]
  rw [countOcc_cancel _ _ (by decide)]
  rw [append_expose5]
  rw [countOcc_hit]
  rw [countOcc_cons_ne 't' _ (by decide)]
  rw [countOcc_cons_ne 'e' _ (by decide)]
  rw [countOcc_cons_ne 'x' _ (by decide)]
  rw [countOcc_cons_ne 't' _ (by decide)]
  rw [countOcc_cancel _ _ (by decide)]
  rw [countOcc_cancel _ _ hX]
  rw [countOcc_cancel _ _ (by decide)]
  rw [countOcc_cancel _ _ hY]
  rw [countOcc_cancel _ _ (by decide)]
  rw [countOcc_cancel _ _ hT]
  rw [append_expose2]
  rw [countOcc_skip_lt '/' _ (by decide)]
  rw [countOcc_cons_ne '/' _ (by decide)]
  rw [countOcc_cancel _ _ (by decide)]
  rw [countOcc_cancel _ _ (by decide)]
  rw [show countOcc ("<text" : String).data
      ['<', '/', 's', 'v', 'g', '>', '\n', ' ', ' ', ' ', ' ', ' ', ' ', ' ', ' ']
      = 0 from by decide]

/-- The escaped text value occurs verbatim in the generated markup. -/
theorem svgText_text_only_seg (w h : ℕ) (t : TextOpts) :
    hasSeg t.text.data (svgText w h t).data = true := by
  simp only [svgText, str_data_append, List.append_assoc]
  iterate 49 apply hasSeg_append_right
  apply hasSeg_of_isPrefixOf
  exact isPrefixOf_append_self _ _

set_option maxRecDepth 8000 in
/-- C8 witness: the markup-structure theorem at a concrete 400 by 300 request
with fontSize 40 and strokeWidth 2 supplied, whose interpolated values are
all free of `<`. -/
theorem c8_markup_structure_witness :
    ltFreeAll 400 300 sampleOpts = true ∧
    (countOcc ("<text" : String).data (svgText 400 300 sampleOpts).data = 1 ∧
    hasSeg (("<svg " ++ "width=\"" ++ toString 400 ++ "\" height=\"" ++ toString 300 ++ "\">")
        : String).data (svgText 400 300 sampleOpts).data = true ∧
    hasSeg (("fill: \"" ++ sampleOpts.fontColor ++ "\";" ++ "\n                "
        ++ "font-size: " ++ jsNumToString sampleOpts.fontSize ++ "px;" ++ "\n                "
        ++ "font-family: \"" ++ sampleOpts.fontFamily ++ "\";" ++ "\n                "
        ++ "text-anchor: \"" ++ sampleOpts.textAlign ++ "\";" ++ "\n                "
        ++ "dominant-baseline: \"" ++ sampleOpts.dominantBaseline ++ "\";" ++ "\n                "
        ++ "paint-order: stroke;" ++ " /* Ensures stroke is drawn behind fill */\n                "
        ++ "stroke: \"" ++ sampleOpts.strokeColor ++ "\";" ++ "\n                "
        ++ "stroke-width: " ++ jsNumToString sampleOpts.strokeWidth ++ "px;" ++ "\n                "
        ++ "stroke-linecap: round;" ++ " /* Smoother stroke ends */\n                "
        ++ "stroke-linejoin: round;") : String).data (svgText 400 300 sampleOpts).data = true ∧
    hasSeg (("<text x=\"" ++ sampleOpts.xPosition ++ "\" y=\"" ++ sampleOpts.yPosition
        ++ "\" class=\"title\">" ++ sampleOpts.text ++ "</text>") : String).data
      (svgText 400 300 sampleOpts).data = true) :=
  ⟨by decide,
    ⟨(c8_markup_structure 400 300 sampleOpts).1 (by decide),
      (c8_markup_structure 400 300 sampleOpts).2.1,
      (c8_markup_structure 400 300 sampleOpts).2.2.1,
      (c8_markup_structure 400 300 sampleOpts).2.2.2⟩⟩

/-- C6 counterexample: for the 400 by 300 upload with no fontSize supplied,
the resolved font size is 25 = max(20, min(400, 300)/12), not the 33 the
claim states. -/
theorem c6_counterexample :
    (mkTextOpts "Hi <there>" ⟨none, none, none, none, none, none, none, none, none, none⟩
        400 300 (some "png")).fontSize = 25 ∧ ((25 : ℚ) ≠ 33) := by
  constructor
  · show max 20 (((min 400 300 : ℕ) : ℚ) / 12) = 25
    norm_num
  · norm_num

set_option maxRecDepth 8000 in
/-- C6 (amended): for a 400 by 300 PNG upload with text `Hi <there>` and no
other fields, the response carries Content-Type `image/png`, the resolved
format is `png`, the resolved font size is 25 (not 33), the text escapes to
`Hi &lt;there&gt;` and the generated markup contains that escaped text. -/
theorem c6_scenario :
    Response.contentTypeHeader (handleAddText (some ()) (some "Hi <there>")
        ⟨none, none, none, none, none, none, none, none, none, none⟩ 400 300 (some "png"))
      = some "image/png" ∧
    (mkTextOpts "Hi <there>" ⟨none, none, none, none, none, none, none, none, none, none⟩
        400 300 (some "png")).fontSize = 25 ∧
    (mkTextOpts "Hi <there>" ⟨none, none, none, none, none, none, none, none, none, none⟩
        400 300 (some "png")).outputFormat = "png" ∧
    (mkTextOpts "Hi <there>" ⟨none, none, none, none, none, none, none, none, none, none⟩
        400 300 (some "png")).text = "Hi &lt;there&gt;" ∧
    hasSeg ("Hi &lt;there&gt;" : String).data
      (svgText 400 300 (mkTextOpts "Hi <there>"
        ⟨none, none, none, none, none, none, none, none, none, none⟩
        400 300 (some "png"))).data = true := by
  refine ⟨?_, ?_, ?_, ?_, ?_⟩
  · decide
  · show max 20 (((min 400 300 : ℕ) : ℚ) / 12) = 25
    norm_num
  · decide
  · decide
  · have h := svgText_text_only_seg 400 300 (mkTextOpts "Hi <there>"
      ⟨none, none, none, none, none, none, none, none, none, none⟩ 400 300 (some "png"))
    rw [show (mkTextOpts "Hi <there>"
        ⟨none, none, none, none, none, none, none, none, none, none⟩
        400 300 (some "png")).text = "Hi &lt;there&gt;" from by decide] at h
    exact h

end Overlay

namespace C2D

/-- C10: the standalone script selects its image source by strict priority:
a truthy local file path wins over everything, and a missing file yields
null with no fallthrough; otherwise a truthy DID is used, yielding exactly
the download result (null on failure, null without an Ocean instance);
otherwise a truthy `INPUT_IMAGE_URL || IMAGE_URL` is fetched; otherwise the
hard-coded default URL is fetched. -/
theorem c10_source_priority (p d u : String) (hp : p ≠ "") (hd : d ≠ "") (hu : u ≠ "")
    (df du1 du2 : Option String) (oc : Bool) (w : FetchWorld) :
    getImageBuffer ⟨some p, df, du1, du2⟩ oc w
      = (if w.fileExists p then some (w.readFile p) else none) ∧
    getImageBuffer ⟨none, some d, du1, du2⟩ true w = w.downloadOceanAsset d ∧
    getImageBuffer ⟨none, some d, du1, du2⟩ false w = none ∧
    getImageBuffer ⟨none, none, some u, du2⟩ oc w = w.httpGet u ∧
    getImageBuffer ⟨none, none, none, some u⟩ oc w = w.httpGet u ∧
    getImageBuffer ⟨none, none, none, none⟩ oc w = w.httpGet defaultImageUrl := by
  refine ⟨?_, ?_, ?_, ?_, ?_, ?_⟩ <;>
    simp [getImageBuffer, jsTruthyOpt, jsOrOpt2, hp, hd, hu]

/-- C10 witness: the priority theorem at concrete configuration strings and
a world where every source fails. -/
theorem c10_source_priority_witness :
    (("/data/in.png" : String) ≠ "" ∧ ("did:op:abc" : String) ≠ ""
      ∧ ("http://img" : String) ≠ "") ∧
    (getImageBuffer ⟨some "/data/in.png", some "dx", some "ux", some "uy"⟩ true sampleWorld
      = (if sampleWorld.fileExists "/data/in.png"
          then some (sampleWorld.readFile "/data/in.png") else none) ∧
    getImageBuffer ⟨none, some "did:op:abc", some "ux", some "uy"⟩ true sampleWorld
      = sampleWorld.downloadOceanAsset "did:op:abc" ∧
    getImageBuffer ⟨none, some "did:op:abc", some "ux", some "uy"⟩ false sampleWorld = none ∧
    getImageBuffer ⟨none, none, some "http://img", some "uy"⟩ true sampleWorld
      = sampleWorld.httpGet "http://img" ∧
    getImageBuffer ⟨none, none, none, some "http://img"⟩ true sampleWorld
      = sampleWorld.httpGet "http://img" ∧
    getImageBuffer ⟨none, none, none, none⟩ true sampleWorld
      = sampleWorld.httpGet defaultImageUrl) :=
  ⟨⟨by decide, by decide, by decide⟩,
    c10_source_priority "/data/in.png" "did:op:abc" "http://img"
      (by decide) (by decide) (by decide) (some "dx") (some "ux") (some "uy") true sampleWorld⟩

end C2D
